import Mathlib

/-!
Shallow embedding of the story-generation pipeline of the `alreadyapp-backend`
repository (FastAPI + Supabase + Anthropic), covering:

* `app/core/claude.py` — `_parse_title_and_body`, `_cap_to_chars`,
  `TITLE_BY_CATEGORY`, `STORY_MAX_CHARS`, and the post-call logic of
  `generate_story`;
* `app/api/stories.py` — `_user_has_subscription`,
  `_count_stories_generated_today`, `_get_desire_id_by_name`, the request
  model `GenerateStoryRequest` with its validator, and the orchestrator
  `generate_story_content`;
* `app/core/story_prompts.py` — the stage dispatch of `get_story_user_prompt`.

Python strings are modelled as `List Char`; the Supabase datastore as an
explicit record of table rows; the awaited Anthropic call and the datastore
insert as explicit outcome parameters (the behavior of the orchestrator is proved
for every outcome of those effects).
-/

namespace Already

/-- Character strings of the embedded Python code, modelled as lists of characters. -/
abbrev Str := List Char

/-- Coerce a Lean string literal to the string type of the embedding. -/
def str (s : String) : Str := s.data

/-- ASCII whitespace, the characters that Python `str.strip()` / `\s` remove on the
inputs this service handles (space, tab, newline, carriage return, vertical
tab, form feed). -/
def isPySpace (c : Char) : Bool :=
  c = ' ' || c = '\t' || c = '\n' || c = '\r' || c = Char.ofNat 11 || c = Char.ofNat 12

/-- Python `str.lstrip()`. -/
def pyLStrip (s : Str) : Str := s.dropWhile isPySpace

/-- Python `str.rstrip()`. -/
def pyRStrip (s : Str) : Str := s.rdropWhile isPySpace

/-- Python `str.strip()` (both ends). -/
def pyStrip (s : Str) : Str := pyRStrip (pyLStrip s)

/-- Python substring test `needle in hay` restricted to a non-empty prefix test:
does `s` start with `needle`? -/
def hasPre : Str → Str → Bool
  | _, [] => true
  | [], _ :: _ => false
  | c :: cs, d :: ds => c = d && hasPre cs ds

/-- Python `needle in hay` (substring containment). -/
def containsSub : Str → Str → Bool
  | [], needle => needle.isEmpty
  | s@(_ :: cs), needle => hasPre s needle || containsSub cs needle

/-! ## app/core/claude.py -/

/-- Embeds `claude.py:11` — `STORY_MAX_CHARS = 2600`. -/
def STORY_MAX_CHARS : Nat := 2600

/-- Embeds `claude.py:10` — `STORY_MIN_CHARS = 1000`. -/
def STORY_MIN_CHARS : Nat := 1000

/-- Embeds `claude.py:14-20` — fallback title by category when the model does not
output a `TITLE:` line. -/
def TITLE_BY_CATEGORY : List (Str × Str) :=
  [(str "Love", str "A Love That Was Already Yours"),
   (str "Money", str "The Abundance That Arrived"),
   (str "Career", str "The Career That Was Already Yours"),
   (str "Health", str "The Vitality That Was Already Yours"),
   (str "Home", str "The Home That Was Already Yours")]

/-- Dictionary lookup `TITLE_BY_CATEGORY[category]` (`None` when the key is
absent, i.e. `category in TITLE_BY_CATEGORY` is false). -/
def titleLookup (category : Str) : Option Str :=
  (TITLE_BY_CATEGORY.find? (fun p => p.1 = category)).map (fun p => p.2)

/-- Embeds `claude.py:58-68` — `_parse_title_and_body(raw)`.

The Python code strips `raw`, then runs
`re.match(r"^TITLE:\s*(.+?)(?:\n|$)", raw, re.IGNORECASE | re.DOTALL)`.
On the stripped input the regex matches exactly when the first six characters
are `TITLE:` up to case and at least one character follows the whitespace run
after the colon; `(.+?)` (non-greedy, terminated by `(?:\n|$)`) then captures
up to the first newline after that whitespace run.  (The backtracking branch
in which `.` with `DOTALL` consumes whitespace is unreachable: the stripped
input has no trailing whitespace, so if everything after the colon is
whitespace, there is nothing after the colon at all.)  `title` is the capture
stripped; `body` is the text after the consumed newline, stripped
(`.strip().lstrip("\n").strip()` collapses to one two-sided strip). -/
def parse_title_and_body (raw : Str) : Str × Str :=
  let r := pyStrip raw
  if (r.take 6).map Char.toLower = str "title:" then
    let rest := r.drop 6
    let u := rest.dropWhile isPySpace
    if u = [] then (([] : Str), r)
    else
      let captured := u.takeWhile (fun c => c ≠ '\n')
      let afterMatch := (u.dropWhile (fun c => c ≠ '\n')).drop 1
      (pyStrip captured, pyStrip afterMatch)
  else (([] : Str), r)

/-- Embeds `claude.py:71-75` — `_cap_to_chars(text, max_chars)`: return `text`
unchanged when within budget, else `text[:max_chars].rstrip()`. -/
def cap_to_chars (text : Str) (maxChars : Nat) : Str :=
  if text.length ≤ maxChars then text else pyRStrip (text.take maxChars)

/-- Embeds `claude.py:119-121` — the fallback step of `generate_story`:
`if not title and category in TITLE_BY_CATEGORY: title = TITLE_BY_CATEGORY[category]`. -/
def applyTitleFallback (title category : Str) : Str :=
  if title = [] then
    match titleLookup category with
    | some t => t
    | none => title
  else title

/-- A raised Python exception, as far as the exception handlers of the orchestrator
distinguish them: `ValueError` (with its message) versus any other exception. -/
inductive PyExc
  | valueError (msg : Str)
  | otherExc (msg : Str)
deriving DecidableEq

/-- The configuration fields of `app.core.config.settings` read by
`claude.generate_story`; empty string models an unset value. -/
structure ClaudeConfig where
  ANTHROPIC_API_KEY : Str
  STORY_SYSTEM_PROMPT : Str
deriving DecidableEq

/-- Outcome of the awaited `client.messages.create` call:
either the call raised, or it returned a message whose first content block has
the given text (`[]` models both an empty `message.content` and an empty
`message.content[0].text`, which `claude.py:115` treats identically). -/
inductive ProviderOutcome
  | raised (msg : Str)
  | returned (text : Str)
deriving DecidableEq

/-- Python `a or b` on an optional string (`None`/empty are falsy). -/
def pyOrStr (a : Option Str) (b : Str) : Str :=
  match a with
  | some s => if s = [] then b else s
  | none => b

/-- Embeds `claude.py:78-123` — `generate_story`, as a function of the configuration,
the `category` argument, the `system_prompt` argument, and the provider-call
outcome.  The remaining arguments (`first_name`, `dream_place`, `energy_word`,
`describe_whats_already_yours`, `someone_you_love`) only shape the user
message sent to the provider and do not affect the returned value given the
provider outcome, so they are absorbed into `provider`.  Returns the
`(title, body)` pair or the raised exception. -/
def generate_story (cfg : ClaudeConfig) (category : Str) (system_prompt : Option Str)
    (provider : ProviderOutcome) : Except PyExc (Str × Str) :=
  if cfg.ANTHROPIC_API_KEY = [] then
    .error (.valueError (str "ANTHROPIC_API_KEY is not set"))
  else
    let base_prompt := pyStrip (pyOrStr system_prompt cfg.STORY_SYSTEM_PROMPT)
    if base_prompt = [] then
      .error (.valueError (str "STORY_SYSTEM_PROMPT is not set; configure it in config.py or .env"))
    else
      match provider with
      | .raised m => .error (.otherExc m)
      | .returned text =>
        if text = [] then .error (.valueError (str "Claude returned no text"))
        else
          let raw := pyStrip text
          let tb := parse_title_and_body raw
          let title := applyTitleFallback tb.1 category
          let body := cap_to_chars tb.2 STORY_MAX_CHARS
          .ok (title, body)

/-! ## app/core/story_prompts.py -/

/-- The four narrative stages of `story_prompts.py`. -/
inductive Stage
  | initialStage
  | deepening
  | surreal
  | mythic
deriving DecidableEq

/-- Embeds `story_prompts.py:239-250` — the stage dispatch of
`get_story_user_prompt(story_count, user_data)`:
`story_count <= 2` Initial, `<= 4` Deepening, `<= 6` Surreal, else Mythic. -/
def select_story_stage (storyCount : Nat) : Stage :=
  if storyCount ≤ 2 then .initialStage
  else if storyCount ≤ 4 then .deepening
  else if storyCount ≤ 6 then .surreal
  else .mythic

/-! ## The datastore (Supabase tables read/written by the pipeline) -/

/-- A row of the `Stories` table.  `created_at` is the datastore-assigned
creation timestamp, modelled as a number so that the `gte` comparison of
`_count_stories_generated_today` is ordinary `≤`. -/
structure StoryRow where
  id : Nat
  user_id : Nat
  desire_id : Nat
  theme : Str
  story : Str
  created_at : Nat
deriving DecidableEq

/-- The columns of the `Users` table read by this pipeline.
`stripe_subscription_id = none` models NULL.  `subscription_status` is the
column the Stripe webhooks maintain (`"active"`, `"trialing"`, `"canceled"`,
...); `stories.py` never reads it. -/
structure UserRow where
  id : Nat
  stripe_subscription_id : Option Str
  subscription_status : Option Str
deriving DecidableEq

/-- A row of the `Desires` table. -/
structure DesireRow where
  id : Nat
  desireCategory : Str
deriving DecidableEq

/-- The datastore state touched by the pipeline. -/
structure Db where
  users : List UserRow
  desires : List DesireRow
  stories : List StoryRow
deriving DecidableEq

/-- Embeds `stories.py:75-82` — `_user_has_subscription`: the first `Users` row with
this id (false when none), then `bool(sub_id and str(sub_id).strip())` on its
`stripe_subscription_id`.  (The dynamic-dict fallback key
`stripe_subscription_Id` is the same column under a different capitalization;
the row type fixes the column name, so it needs no separate model.) -/
def user_has_subscription (db : Db) (uid : Nat) : Bool :=
  match db.users.find? (fun u => u.id = uid) with
  | none => false
  | some u =>
    match u.stripe_subscription_id with
    | none => false
    | some s => !s.isEmpty && !(pyStrip s).isEmpty

/-- Embeds `stories.py:85-90` — `_count_stories_generated_today`: count of `Stories`
rows with this `user_id` (all categories) and `created_at` at or after the
start of the current UTC day. -/
def count_stories_generated_today (db : Db) (todayStart : Nat) (uid : Nat) : Nat :=
  (db.stories.filter (fun s => s.user_id = uid && todayStart ≤ s.created_at)).length

/-- An `HTTPException(status_code, detail)`. -/
structure HTTPError where
  status : Nat
  detail : Str
deriving DecidableEq

/-- Embeds `stories.py:59-72` — `_get_desire_id_by_name`: first `Desires` row whose
`desireCategory` equals the label, 404 when none.  (The `row.get("id") or
row.get("Id")` missing-id 500 branch is unreachable in the model because the
row type always carries its id.) -/
def get_desire_id_by_name (db : Db) (category : Str) : Except HTTPError Nat :=
  match db.desires.find? (fun d => d.desireCategory = category) with
  | none =>
    .error ⟨404, str "No desire found for category " ++ category ++
      str ". Add a row in Desires with desireCategory=" ++ category ++ str "."⟩
  | some d => .ok d.id

/-- Insertion by ascending `id`, auxiliary to `sortById`. -/
def insertById (r : StoryRow) : List StoryRow → List StoryRow
  | [] => [r]
  | x :: xs => if r.id ≤ x.id then r :: x :: xs else x :: insertById r xs

/-- Embeds the `.order("id")` of the history query: sort rows by ascending id. -/
def sortById : List StoryRow → List StoryRow
  | [] => []
  | x :: xs => insertById x (sortById xs)

/-- Embeds `stories.py:116-117` — the history query: `Stories` rows with this
`user_id` and `desire_id`, ordered by id ascending. -/
def stories_for (db : Db) (uid did : Nat) : List StoryRow :=
  sortById (db.stories.filter (fun s => s.user_id = uid && s.desire_id = did))

/-- Embeds `stories.py:118` — `existing_count`: the row count of the history query. -/
def existing_count (db : Db) (uid did : Nat) : Nat :=
  (stories_for db uid did).length

/-- Embeds `stories.py:119` — `story_count = existing_count + 1`, the 1-based sequence
number of the story being generated. -/
def next_story_count (db : Db) (uid did : Nat) : Nat :=
  existing_count db uid did + 1

/-- Embeds `stories.py:120-124` — `previous_story_themes`: the non-empty stripped
themes of the history rows, in order. -/
def previous_story_themes (db : Db) (uid did : Nat) : List Str :=
  ((stories_for db uid did).map (fun s => pyStrip s.theme)).filter (fun t => t ≠ [])

/-! ## app/api/stories.py — request model and orchestrator -/

/-- Embeds `stories.py:15-22` — the fields of `GenerateStoryRequest`. -/
structure GenerateStoryRequest where
  user_id : Nat
  name : Str
  location : Str
  energyWord : Str
  desireCategory : Str
  desireDescription : Str
  lovedOne : Option Str
deriving DecidableEq

/-- Modelled from the spec: `app.core.config.ENERGY_WORDS`.  `stories.py:9`
imports `ENERGY_WORDS` from `app.core.config`, but `src/app/core/config.py`
does not define it; the spec fixes the enumeration as
Powerful, Peaceful, Abundant, Grateful, Confident. -/
def ENERGY_WORDS : List Str :=
  [str "Powerful", str "Peaceful", str "Abundant", str "Grateful", str "Confident"]

/-- Modelled from the spec: `app.core.config.CATEGORIES`.  `stories.py:9`
imports `CATEGORIES` from `app.core.config`, but `src/app/core/config.py`
does not define it; the spec fixes the enumeration as
Love, Money, Career, Health, Home. -/
def CATEGORIES : List Str :=
  [str "Love", str "Money", str "Career", str "Health", str "Home"]

/-- Embeds `stories.py:15-30` — the pydantic validation of `GenerateStoryRequest`:
`name`, `location`, `desireDescription` have `min_length=1`, and the
`model_validator` requires `energyWord ∈ ENERGY_WORDS` and
`desireCategory ∈ CATEGORIES`. -/
def valid_generate_story_request (r : GenerateStoryRequest) : Bool :=
  !r.name.isEmpty && !r.location.isEmpty && !r.desireDescription.isEmpty &&
    ENERGY_WORDS.contains r.energyWord && CATEGORIES.contains r.desireCategory

/-- Embeds `stories.py:110-113` — the quota-denial response. -/
def quotaError : HTTPError :=
  ⟨403, str "Non-subscribers can generate only 1 story per day. Subscribe to create more."⟩

/-- Embeds `stories.py:136-141` — the exception handlers around the generation call:
a `ValueError` whose message mentions `ANTHROPIC_API_KEY` becomes 503, any
other `ValueError` becomes 400 with the message as detail, and any other
exception becomes 502. -/
def map_generation_exception (e : PyExc) : HTTPError :=
  match e with
  | .valueError m =>
    if containsSub m (str "ANTHROPIC_API_KEY") then
      ⟨503, str "Story generation is not configured"⟩
    else ⟨400, m⟩
  | .otherExc m => ⟨502, str "Story generation failed: " ++ m⟩

/-- The JSON object returned on success (`stories.py:155-159`):
`created.get("id")`, the theme and the story. -/
structure SuccessResp where
  id : Option Nat
  theme : Str
  story : Str
deriving DecidableEq

instance exceptDecEq {ε α : Type} [DecidableEq ε] [DecidableEq α] :
    DecidableEq (Except ε α) := fun a b =>
  match a, b with
  | .error x, .error y =>
    if h : x = y then .isTrue (by rw [h])
    else .isFalse (by intro hh; cases hh; exact h rfl)
  | .error _, .ok _ => .isFalse (by intro hh; cases hh)
  | .ok _, .error _ => .isFalse (by intro hh; cases hh)
  | .ok x, .ok y =>
    if h : x = y then .isTrue (by rw [h])
    else .isFalse (by intro hh; cases hh; exact h rfl)

/-- Result of one run of the endpoint handler: the HTTP response, the
datastore state afterwards, and whether control reached the generation call
(`stories.py:125`). -/
structure OrchOutcome where
  response : Except HTTPError SuccessResp
  db : Db
  reached_generation : Bool
deriving DecidableEq

/-- Embeds `stories.py:93-159` — the handler body of `POST /stories/generate`.

`genStep storyCount previousThemes` is the outcome of the awaited
generation-call expression at `stories.py:126-135` (the handler passes it the
computed sequence number and prior-theme list); `storageOk` is whether the
`Stories` insert succeeds; `newId` and `now` are the id and `created_at` the
datastore assigns to the inserted row.

Control flow, in source order: the quota gate (non-subscribers with at least
one story today get 403), category resolution (404 propagates), the history
read, the generation call with its exception mapping, the insert (a failure
becomes 502), and response assembly. -/
def generate_story_content (db : Db) (todayStart now : Nat) (req : GenerateStoryRequest)
    (genStep : Nat → List Str → Except PyExc (Str × Str))
    (storageOk : Bool) (newId : Nat) : OrchOutcome :=
  if user_has_subscription db req.user_id = false ∧
      1 ≤ count_stories_generated_today db todayStart req.user_id then
    { response := .error quotaError, db := db, reached_generation := false }
  else
    match get_desire_id_by_name db req.desireCategory with
    | .error e => { response := .error e, db := db, reached_generation := false }
    | .ok desire_id =>
      match genStep (next_story_count db req.user_id desire_id)
          (previous_story_themes db req.user_id desire_id) with
      | .error e =>
        { response := .error (map_generation_exception e), db := db, reached_generation := true }
      | .ok (theme, story) =>
        if storageOk then
          { response := .ok ⟨some newId, theme, story⟩
            db := { db with stories :=
              db.stories ++ [⟨newId, req.user_id, desire_id, theme, story, now⟩] }
            reached_generation := true }
        else
          { response := .error ⟨502, str "Failed to store story"⟩
            db := db, reached_generation := true }

/-- Result of handling one HTTP request, including the framework-level body
validation that runs before the handler: whether any datastore access
happened, in addition to the `OrchOutcome` fields. -/
structure EndpointOutcome where
  response : Except HTTPError SuccessResp
  db : Db
  datastore_called : Bool
  reached_generation : Bool
deriving DecidableEq

/-- One `POST /stories/generate` request: FastAPI validates the body against
`GenerateStoryRequest` first; an invalid body is rejected with 422 before the
handler body (and hence any datastore or provider access) runs. -/
def handle_generate_story (db : Db) (todayStart now : Nat) (req : GenerateStoryRequest)
    (genStep : Nat → List Str → Except PyExc (Str × Str))
    (storageOk : Bool) (newId : Nat) : EndpointOutcome :=
  if valid_generate_story_request req then
    let o := generate_story_content db todayStart now req genStep storageOk newId
    ⟨o.response, o.db, true, o.reached_generation⟩
  else
    ⟨.error ⟨422, str "validation error"⟩, db, false, false⟩

/-! ## The generation call as stories.py actually makes it -/

/-- The parameter names of `claude.generate_story` (`claude.py:78-86`). -/
def generate_story_param_names : List Str :=
  [str "first_name", str "dream_place", str "energy_word", str "category",
   str "describe_whats_already_yours", str "someone_you_love", str "system_prompt"]

/-- The keyword-argument names of the call at `stories.py:126-135`. -/
def generate_story_call_kwarg_names : List Str :=
  [str "name", str "location", str "energyWord", str "desireCategory",
   str "desireDescription", str "lovedOne", str "storyCount", str "previousStoryThemes"]

/-- Necessary condition for Python keyword binding: every keyword argument
must name a parameter of the callee (otherwise the call raises
`TypeError: ... got an unexpected keyword argument ...`). -/
def kwargsAccepted : Bool :=
  generate_story_call_kwarg_names.all (fun k => generate_story_param_names.contains k)

/-- The generation-call expression at `stories.py:126-135` as executed: a
keyword call of `claude.generate_story`.  When the keyword binding fails,
Python raises `TypeError` at the call, before any provider I/O; otherwise the
callee runs (with no `system_prompt` argument, and with `storyCount` /
`previousStoryThemes` not reaching it since it has no such parameters). -/
def actual_generation_step (cfg : ClaudeConfig) (category : Str)
    (provider : ProviderOutcome) : Nat → List Str → Except PyExc (Str × Str) :=
  fun _storyCount _previousThemes =>
    if kwargsAccepted then generate_story cfg category none provider
    else .error (.otherExc
      (str "generate_story() got an unexpected keyword argument name"))

/-! ## Helper lemmas about the string primitives -/

lemma pyRStrip_length_le (s : Str) : (pyRStrip s).length ≤ s.length := by
  have h := (List.dropWhile_sublist (l := s.reverse) isPySpace).length_le
  simpa [pyRStrip, List.rdropWhile] using h

lemma pyRStrip_append_rtake (s : Str) :
    pyRStrip s ++ s.rtakeWhile isPySpace = s := by
  unfold pyRStrip List.rdropWhile List.rtakeWhile
  rw [← List.reverse_append, List.takeWhile_append_dropWhile, List.reverse_reverse]

lemma pyRStrip_eq_self_of_getLast (s : Str) (c : Char)
    (h : s.getLast? = some c) (hc : isPySpace c = false) : pyRStrip s = s := by
  unfold pyRStrip
  rw [List.rdropWhile_eq_self_iff]
  intro hl
  rw [List.getLast?_eq_getLast s hl] at h
  have he : s.getLast hl = c := Option.some.inj h
  rw [he, hc]
  simp

lemma pyStrip_fixed_parts (b : Str) (h : pyStrip b = b) :
    pyLStrip b = b ∧ pyRStrip b = b := by
  unfold pyStrip at h
  have h1 : (pyLStrip b).length ≤ b.length :=
    (List.dropWhile_sublist (l := b) isPySpace).length_le
  have h2 : (pyRStrip (pyLStrip b)).length ≤ (pyLStrip b).length := pyRStrip_length_le _
  have hlen : (pyRStrip (pyLStrip b)).length = b.length := by rw [h]
  have hle : (pyLStrip b).length = b.length := by omega
  have e1 : pyLStrip b = b :=
    (List.dropWhile_sublist (l := b) isPySpace).eq_of_length hle
  refine ⟨e1, ?_⟩
  rw [e1] at h
  exact h

lemma pyRStrip_append_of_fixed (xs b : Str) (hb : b ≠ []) (h : pyRStrip b = b) :
    pyRStrip (xs ++ b) = xs ++ b := by
  unfold pyRStrip
  rw [List.rdropWhile_eq_self_iff]
  intro hl
  rw [List.getLast_append_of_ne_nil hb]
  have := (List.rdropWhile_eq_self_iff).mp h hb
  exact this

/-! ## Helper lemmas about the embedded components -/

lemma length_insertById (r : StoryRow) (l : List StoryRow) :
    (insertById r l).length = l.length + 1 := by
  induction l with
  | nil => rfl
  | cons x xs ih =>
    unfold insertById
    split
    · simp
    · simp [ih]

lemma length_sortById (l : List StoryRow) : (sortById l).length = l.length := by
  induction l with
  | nil => rfl
  | cons x xs ih => simp [sortById, length_insertById, ih]

lemma get_desire_error_status (db : Db) (c : Str) (e : HTTPError)
    (h : get_desire_id_by_name db c = .error e) : e.status = 404 := by
  unfold get_desire_id_by_name at h
  cases hfind : db.desires.find? (fun d => d.desireCategory = c) with
  | none => rw [hfind] at h; cases h; rfl
  | some d => rw [hfind] at h; cases h

lemma map_generation_exception_ne_quota (e : PyExc) :
    map_generation_exception e ≠ quotaError := by
  cases e with
  | valueError m =>
    simp only [map_generation_exception, quotaError]
    by_cases hc : containsSub m (str "ANTHROPIC_API_KEY") = true
    · rw [if_pos hc]
      intro h
      injection h with h1 h2
      exact absurd h1 (by omega)
    · rw [if_neg hc]
      intro h
      injection h with h1 h2
      exact absurd h1 (by omega)
  | otherExc m =>
    simp only [map_generation_exception, quotaError]
    intro h
    injection h with h1 h2
    exact absurd h1 (by omega)

lemma httpError_ne_of_status {a b : HTTPError} (h : a.status ≠ b.status) : a ≠ b :=
  fun e => h (congrArg HTTPError.status e)

/-! ### Branch evaluations of the orchestrator -/

lemma gsc_quota_denied (db : Db) (todayStart now : Nat) (req : GenerateStoryRequest)
    (genStep : Nat → List Str → Except PyExc (Str × Str)) (storageOk : Bool) (newId : Nat)
    (hq : user_has_subscription db req.user_id = false ∧
      1 ≤ count_stories_generated_today db todayStart req.user_id) :
    generate_story_content db todayStart now req genStep storageOk newId =
      { response := .error quotaError, db := db, reached_generation := false } := by
  unfold generate_story_content
  rw [if_pos hq]

lemma gsc_desire_fail (db : Db) (todayStart now : Nat) (req : GenerateStoryRequest)
    (genStep : Nat → List Str → Except PyExc (Str × Str)) (storageOk : Bool) (newId : Nat)
    (hq : ¬ (user_has_subscription db req.user_id = false ∧
      1 ≤ count_stories_generated_today db todayStart req.user_id))
    (e : HTTPError) (hd : get_desire_id_by_name db req.desireCategory = .error e) :
    generate_story_content db todayStart now req genStep storageOk newId =
      { response := .error e, db := db, reached_generation := false } := by
  unfold generate_story_content
  rw [if_neg hq]
  simp only [hd]

lemma gsc_gen_error (db : Db) (todayStart now : Nat) (req : GenerateStoryRequest)
    (genStep : Nat → List Str → Except PyExc (Str × Str)) (storageOk : Bool) (newId : Nat)
    (hq : ¬ (user_has_subscription db req.user_id = false ∧
      1 ≤ count_stories_generated_today db todayStart req.user_id))
    (did : Nat) (hd : get_desire_id_by_name db req.desireCategory = .ok did)
    (ge : PyExc)
    (hg : genStep (next_story_count db req.user_id did)
      (previous_story_themes db req.user_id did) = .error ge) :
    generate_story_content db todayStart now req genStep storageOk newId =
      { response := .error (map_generation_exception ge), db := db, reached_generation := true } := by
  unfold generate_story_content
  rw [if_neg hq]
  simp only [hd, hg]

lemma gsc_success (db : Db) (todayStart now : Nat) (req : GenerateStoryRequest)
    (genStep : Nat → List Str → Except PyExc (Str × Str)) (newId : Nat)
    (hq : ¬ (user_has_subscription db req.user_id = false ∧
      1 ≤ count_stories_generated_today db todayStart req.user_id))
    (did : Nat) (hd : get_desire_id_by_name db req.desireCategory = .ok did)
    (theme story : Str)
    (hg : genStep (next_story_count db req.user_id did)
      (previous_story_themes db req.user_id did) = .ok (theme, story)) :
    generate_story_content db todayStart now req genStep true newId =
      { response := .ok ⟨some newId, theme, story⟩
        db := { db with stories :=
          db.stories ++ [⟨newId, req.user_id, did, theme, story, now⟩] }
        reached_generation := true } := by
  unfold generate_story_content
  rw [if_neg hq]
  simp only [hd, hg]
  rfl

lemma gsc_storage_fail (db : Db) (todayStart now : Nat) (req : GenerateStoryRequest)
    (genStep : Nat → List Str → Except PyExc (Str × Str)) (newId : Nat)
    (hq : ¬ (user_has_subscription db req.user_id = false ∧
      1 ≤ count_stories_generated_today db todayStart req.user_id))
    (did : Nat) (hd : get_desire_id_by_name db req.desireCategory = .ok did)
    (theme story : Str)
    (hg : genStep (next_story_count db req.user_id did)
      (previous_story_themes db req.user_id did) = .ok (theme, story)) :
    generate_story_content db todayStart now req genStep false newId =
      { response := .error ⟨502, str "Failed to store story"⟩
        db := db, reached_generation := true } := by
  unfold generate_story_content
  rw [if_neg hq]
  simp only [hd, hg]
  rfl

/-! ## Claims -/

/-- Claim C5: the returned story body never exceeds `STORY_MAX_CHARS = 2600`
characters: a body within the budget is returned unchanged; a longer body is
cut at 2600 characters with only a whitespace-only suffix after the cut
trimmed; when the character at the cut is not whitespace the result is
exactly 2600 characters long. -/
theorem c5_cap_never_exceeds_budget (text : Str) :
    (cap_to_chars text STORY_MAX_CHARS).length ≤ STORY_MAX_CHARS ∧
    (text.length ≤ STORY_MAX_CHARS → cap_to_chars text STORY_MAX_CHARS = text) ∧
    (STORY_MAX_CHARS < text.length →
      ∃ w : Str, text.take STORY_MAX_CHARS = cap_to_chars text STORY_MAX_CHARS ++ w ∧
        ∀ c ∈ w, isPySpace c = true) ∧
    (∀ c : Char, STORY_MAX_CHARS < text.length →
      (text.take STORY_MAX_CHARS).getLast? = some c → isPySpace c = false →
      (cap_to_chars text STORY_MAX_CHARS).length = STORY_MAX_CHARS) := by
  refine ⟨?_, ?_, ?_, ?_⟩
  · unfold cap_to_chars
    split
    · assumption
    · calc (pyRStrip (text.take STORY_MAX_CHARS)).length
          ≤ (text.take STORY_MAX_CHARS).length := pyRStrip_length_le _
        _ ≤ STORY_MAX_CHARS := by rw [List.length_take]; omega
  · intro h
    unfold cap_to_chars
    rw [if_pos h]
  · intro h
    unfold cap_to_chars
    rw [if_neg (by omega)]
    exact ⟨(text.take STORY_MAX_CHARS).rtakeWhile isPySpace,
      (pyRStrip_append_rtake _).symm, fun c hc => List.mem_rtakeWhile_imp hc⟩
  · intro c h hlast hc
    unfold cap_to_chars
    rw [if_neg (by omega)]
    rw [pyRStrip_eq_self_of_getLast _ c hlast hc, List.length_take]
    omega

/-- Witness for C5 at a concrete 3000-character body of non-whitespace
characters: the capped result is exactly 2600 characters long. -/
theorem c5_cap_never_exceeds_budget_witness :
    (cap_to_chars (List.replicate 3000 'a') STORY_MAX_CHARS).length = STORY_MAX_CHARS := by
  have h1 : STORY_MAX_CHARS < (List.replicate 3000 'a' : Str).length := by
    rw [List.length_replicate]
    unfold STORY_MAX_CHARS
    omega
  have h2 : ((List.replicate 3000 'a' : Str).take STORY_MAX_CHARS).getLast? = some 'a' := by
    rw [List.take_replicate]
    rw [show STORY_MAX_CHARS ⊓ 3000 = 2599 + 1 by unfold STORY_MAX_CHARS; omega]
    rw [List.replicate_succ']
    exact List.getLast?_concat _
  exact (c5_cap_never_exceeds_budget (List.replicate 3000 'a')).2.2.2 'a' h1 h2 (by decide)

/-- Claim C6: the sequence number of a new story is the count of the existing stories of that user in that category plus one, scoped strictly per
(user, category): stories of another category or another user never change
it. -/
theorem c6_sequence_number_scoped (db : Db) (uid did : Nat) (row : StoryRow) :
    next_story_count db uid did =
      (db.stories.filter (fun s => s.user_id = uid && s.desire_id = did)).length + 1 ∧
    (row.desire_id ≠ did ∨ row.user_id ≠ uid →
      next_story_count { db with stories := db.stories ++ [row] } uid did =
        next_story_count db uid did) := by
  constructor
  · unfold next_story_count existing_count stories_for
    rw [length_sortById]
  · intro h
    unfold next_story_count existing_count stories_for
    rw [length_sortById, length_sortById]
    have hfalse : (decide (row.user_id = uid) && decide (row.desire_id = did)) = false := by
      rcases h with h | h <;> simp [h]
    simp [List.filter_append, List.filter_cons, hfalse]

/-- The state of the C6 scenario: user 9 has three stories in the "Love"
category (desire id 1) and none in "Money" (desire id 2). -/
def c6_db : Db :=
  ⟨[], [⟨1, str "Love"⟩, ⟨2, str "Money"⟩],
   [⟨21, 9, 1, str "a", str "sa", 5⟩, ⟨22, 9, 1, str "b", str "sb", 6⟩,
    ⟨23, 9, 1, str "c", str "sc", 7⟩]⟩

/-- Witness for C6: with three existing "Love" stories and none in "Money",
the next "Money" story of user 9 gets sequence number 1 (not 4), and adding
a further "Love" row still leaves the "Money" sequence number at 1. -/
theorem c6_sequence_number_scoped_witness :
    next_story_count c6_db 9 2 = 1 ∧
    next_story_count { c6_db with stories := c6_db.stories ++ [⟨24, 9, 1, str "d", str "sd", 8⟩] } 9 2 = 1 := by
  have h := (c6_sequence_number_scoped c6_db 9 2 ⟨24, 9, 1, str "d", str "sd", 8⟩).2
    (Or.inl (by decide))
  refine ⟨by decide, ?_⟩
  rw [h]
  decide

/-- Claim C7: in a successful generation, whenever the parsed theme is empty
after trimming, the theme is the fixed per-category fallback title when the
category has an entry in `TITLE_BY_CATEGORY`, and stays empty when it has
none; a non-empty parsed theme is kept as is. -/
theorem c7_theme_fallback (cfg : ClaudeConfig) (category : Str) (sp : Option Str)
    (text : Str) (t b : Str)
    (h : generate_story cfg category sp (.returned text) = .ok (t, b)) :
    ((parse_title_and_body (pyStrip text)).1 = [] →
      ((∃ ft, titleLookup category = some ft ∧ t = ft) ∨
        (titleLookup category = none ∧ t = []))) ∧
    ((parse_title_and_body (pyStrip text)).1 ≠ [] →
      t = (parse_title_and_body (pyStrip text)).1) := by
  simp only [generate_story] at h
  split at h
  · cases h
  · split at h
    · cases h
    · split at h
      · cases h
      · have ht : applyTitleFallback (parse_title_and_body (pyStrip text)).1 category = t := by
          have := Except.ok.inj h
          exact congrArg Prod.fst this
        constructor
        · intro hempty
          rw [hempty] at ht
          unfold applyTitleFallback at ht
          rw [if_pos rfl] at ht
          cases hl : titleLookup category with
          | some ft => rw [hl] at ht; exact Or.inl ⟨ft, rfl, ht.symm⟩
          | none => rw [hl] at ht; exact Or.inr ⟨rfl, ht.symm⟩
        · intro hne
          unfold applyTitleFallback at ht
          rw [if_neg hne] at ht
          exact ht.symm

/-- Witness for C7: a provider response with no title line in category
"Money" gets the fallback theme "The Abundance That Arrived". -/
theorem c7_theme_fallback_witness :
    (∃ ft, titleLookup (str "Money") = some ft ∧ str "The Abundance That Arrived" = ft) ∨
      (titleLookup (str "Money") = none ∧ str "The Abundance That Arrived" = []) := by
  have h := c7_theme_fallback ⟨str "sk-key", str "be a storyteller"⟩ (str "Money") none
    (str "hello") (str "The Abundance That Arrived") (str "hello") (by decide)
  exact h.1 (by decide)

/-- Claim C3 counterexample: the parser recognizes only `TITLE:`, not
`THEME:`; on the claimed input `"THEME: The Quiet Morning\n\nI woke up..."`
it yields an empty theme with the entire text as body, not theme
`"The Quiet Morning"` with body `"I woke up..."`. -/
theorem c3_theme_label_counterexample :
    parse_title_and_body (str "THEME: The Quiet Morning\n\nI woke up...") =
      (str "", str "THEME: The Quiet Morning\n\nI woke up...") ∧
    parse_title_and_body (str "THEME: The Quiet Morning\n\nI woke up...") ≠
      (str "The Quiet Morning", str "I woke up...") := by
  decide

/-- Claim C3 (amended): the theme line is extracted by a case-insensitive
match of `^TITLE:\s*(.+?)(?:\n|$)` on the stripped response; only the
`TITLE:` label is recognized (no `THEME:` alternative).  The input
`"TITLE: The Quiet Morning\n\nI woke up..."` yields theme
`"The Quiet Morning"` and body `"I woke up..."`, and any input that does not
start with `TITLE:` (up to case, after stripping) — including one labelled
`THEME:` — yields an empty theme with the entire stripped text as body. -/
theorem c3_title_parse_amended :
    parse_title_and_body (str "TITLE: The Quiet Morning\n\nI woke up...") =
      (str "The Quiet Morning", str "I woke up...") ∧
    parse_title_and_body (str "No label here\n\nJust text") =
      (str "", str "No label here\n\nJust text") ∧
    (∀ raw : Str, ((pyStrip raw).take 6).map Char.toLower ≠ str "title:" →
      parse_title_and_body raw = ([], pyStrip raw)) := by
  refine ⟨by decide, by decide, ?_⟩
  intro raw h
  simp only [parse_title_and_body]
  rw [if_neg h]

/-- Witness for C3 at a concrete unlabelled response. -/
theorem c3_title_parse_amended_witness :
    parse_title_and_body (str "Chapter one\n\nBody") = ([], pyStrip (str "Chapter one\n\nBody")) :=
  c3_title_parse_amended.2.2 (str "Chapter one\n\nBody") (by decide)

/-- Claim C10 counterexample: for a response whose first line is exactly
`TITLE:` and whose body spans two lines, the parser does not return the whole
subsequent text as the title with an empty body — it takes only the first
following line as the title and keeps the rest as the body. -/
theorem c10_bare_label_counterexample :
    parse_title_and_body (str "TITLE:\n\nLine one\nLine two") =
      (str "Line one", str "Line two") ∧
    parse_title_and_body (str "TITLE:\n\nLine one\nLine two") ≠
      (str "Line one\nLine two", str "") := by
  decide

/-- Claim C10 (amended): for a response of the form `"TITLE:\n\n" ++ b` where
the body `b` is a single stripped non-empty line (no newline in it), the
parser returns `b` itself as the title and an empty body — `\s*` consumes the
blank lines after the bare label and `(.+?)` captures the following text up
to the next newline or the end.  In particular `"TITLE:\n\nBody text"` yields
title `"Body text"` and body `""`. -/
theorem c10_bare_label_amended (b : Str) (hb : b ≠ []) (hstrip : pyStrip b = b)
    (hnl : ∀ c ∈ b, c ≠ '\n') :
    parse_title_and_body (str "TITLE:\n\n" ++ b) = (b, ([] : Str)) := by
  obtain ⟨hL, hR⟩ := pyStrip_fixed_parts b hstrip
  have hs : pyStrip (str "TITLE:\n\n" ++ b) = str "TITLE:\n\n" ++ b := by
    have h1 : pyLStrip (str "TITLE:\n\n" ++ b) = str "TITLE:\n\n" ++ b := rfl
    unfold pyStrip
    rw [h1]
    exact pyRStrip_append_of_fixed _ _ hb hR
  have hu : ((str "TITLE:\n\n" ++ b).drop 6).dropWhile isPySpace = b := by
    show b.dropWhile isPySpace = b
    exact hL
  have hcap : b.takeWhile (fun c => c ≠ '\n') = b :=
    List.takeWhile_eq_self_iff.mpr (fun x hx => by simpa using hnl x hx)
  have hafter : b.dropWhile (fun c => c ≠ '\n') = [] :=
    List.dropWhile_eq_nil_iff.mpr (fun x hx => by simpa using hnl x hx)
  simp only [parse_title_and_body]
  rw [hs]
  rw [if_pos (show ((str "TITLE:\n\n" ++ b).take 6).map Char.toLower = str "title:" from rfl)]
  rw [hu, if_neg hb, hcap, hafter]
  rw [hstrip]
  rfl

/-- Witness for C10 at the claimed input `"TITLE:\n\nBody text"`. -/
theorem c10_bare_label_amended_witness :
    parse_title_and_body (str "TITLE:\n\n" ++ str "Body text") = (str "Body text", ([] : Str)) :=
  c10_bare_label_amended (str "Body text") (by decide) (by decide) (by decide)

/-- Claim C4 counterexample: an empty provider response raises
`ValueError("Claude returned no text")`, which the exception handler of the orchestrator
maps to HTTP 400 — a client-error status, not a service-side (5xx) failure
as the claim states. -/
theorem c4_empty_response_counterexample :
    generate_story ⟨str "sk-key", str "be a storyteller"⟩ (str "Money") none
        (.returned (str "")) =
      .error (.valueError (str "Claude returned no text")) ∧
    map_generation_exception (.valueError (str "Claude returned no text")) =
      ⟨400, str "Claude returned no text"⟩ ∧
    ¬ 500 ≤ (map_generation_exception (.valueError (str "Claude returned no text"))).status := by
  decide

/-- Claim C4 (amended): for every generate-story request that passes the
quota gate and category resolution and whose provider call returns empty or
missing text, `generate_story` raises `ValueError("Claude returned no
text")`, the request fails with HTTP 400 carrying that message (a
client-error status, not a 5xx one), and no Story row is inserted. -/
theorem c4_empty_response_amended (cfg : ClaudeConfig) (category : Str) (sp : Option Str)
    (db : Db) (todayStart now : Nat) (req : GenerateStoryRequest)
    (genStep : Nat → List Str → Except PyExc (Str × Str)) (storageOk : Bool) (newId : Nat)
    (hkey : cfg.ANTHROPIC_API_KEY ≠ [])
    (hprompt : pyStrip (pyOrStr sp cfg.STORY_SYSTEM_PROMPT) ≠ [])
    (hgen : ∀ n themes, genStep n themes = generate_story cfg category sp (.returned (str "")))
    (hquota : ¬ (user_has_subscription db req.user_id = false ∧
      1 ≤ count_stories_generated_today db todayStart req.user_id))
    (did : Nat) (hdesire : get_desire_id_by_name db req.desireCategory = .ok did) :
    generate_story cfg category sp (.returned (str "")) =
      .error (.valueError (str "Claude returned no text")) ∧
    (generate_story_content db todayStart now req genStep storageOk newId).response =
      .error ⟨400, str "Claude returned no text"⟩ ∧
    (generate_story_content db todayStart now req genStep storageOk newId).db = db := by
  have hg : generate_story cfg category sp (.returned (str "")) =
      .error (.valueError (str "Claude returned no text")) := by
    simp only [generate_story]
    rw [if_neg hkey, if_neg hprompt]
    rfl
  refine ⟨hg, ?_⟩
  have hrun := gsc_gen_error db todayStart now req genStep storageOk newId hquota did hdesire
    (.valueError (str "Claude returned no text")) (by rw [hgen, hg])
  rw [hrun]
  refine ⟨?_, rfl⟩
  show Except.error (map_generation_exception (PyExc.valueError (str "Claude returned no text"))) =
    Except.error ⟨400, str "Claude returned no text"⟩
  decide

/-- The database of the C4 witness scenario: no `Users` row for user 7 (hence
no subscription and no story today) and a `Desires` row for "Money". -/
def c4_db : Db := ⟨[], [⟨1, str "Money"⟩], []⟩

/-- The request of the C4 witness scenario. -/
def c4_req : GenerateStoryRequest :=
  ⟨7, str "Ann", str "Paris", str "Abundant", str "Money", str "I had enough money", none⟩

/-- Witness for C4 at a concrete request whose provider call returns empty
text: HTTP 400 and an unchanged datastore. -/
theorem c4_empty_response_amended_witness :
    (generate_story_content c4_db 100 150 c4_req
        (fun _ _ => generate_story ⟨str "sk-key", str "be a storyteller"⟩ (str "Money") none
          (.returned (str ""))) true 7).response =
      .error ⟨400, str "Claude returned no text"⟩ ∧
    (generate_story_content c4_db 100 150 c4_req
        (fun _ _ => generate_story ⟨str "sk-key", str "be a storyteller"⟩ (str "Money") none
          (.returned (str ""))) true 7).db = c4_db := by
  have h := c4_empty_response_amended ⟨str "sk-key", str "be a storyteller"⟩ (str "Money") none
    c4_db 100 150 c4_req
    (fun _ _ => generate_story ⟨str "sk-key", str "be a storyteller"⟩ (str "Money") none
      (.returned (str "")))
    true 7 (by decide) (by decide) (fun _ _ => rfl) (by decide) 1 (by decide)
  exact h.2

/-- The claim wording of C2, formalized from the spec: the user has an
active or trialing subscription according to the `subscription_status`
column the Stripe webhooks maintain. -/
def spec_active_or_trialing (db : Db) (uid : Nat) : Bool :=
  match db.users.find? (fun u => u.id = uid) with
  | none => false
  | some u =>
    u.subscription_status = some (str "active") ||
      u.subscription_status = some (str "trialing")

/-- The database of the C2 counterexample: user 5 has a canceled subscription
(`subscription_status = "canceled"`) whose `stripe_subscription_id` is still
stored, and already has one story created today. -/
def c2_db : Db :=
  ⟨[⟨5, some (str "sub_123"), some (str "canceled")⟩],
   [⟨1, str "Money"⟩],
   [⟨10, 5, 1, str "old theme", str "old story", 120⟩]⟩

/-- The request of the C2 counterexample. -/
def c2_req : GenerateStoryRequest :=
  ⟨5, str "Ann", str "Paris", str "Abundant", str "Money", str "I had enough money", none⟩

/-- Claim C2 counterexample: user 5 has no active/trialing subscription and
already has a story today, yet the request is not denied with the quota
error — the generation step is still reached, because the code treats any
stored `stripe_subscription_id` as a subscription regardless of status. -/
theorem c2_quota_counterexample :
    spec_active_or_trialing c2_db 5 = false ∧
    1 ≤ count_stories_generated_today c2_db 100 5 ∧
    (generate_story_content c2_db 100 150 c2_req
        (fun _ _ => .error (.otherExc (str "boom"))) true 11).reached_generation = true ∧
    (generate_story_content c2_db 100 150 c2_req
        (fun _ _ => .error (.otherExc (str "boom"))) true 11).response ≠ .error quotaError := by
  decide

/-- Claim C2 (amended): the subscription notion of the code is a non-empty stored
`stripe_subscription_id` (`_user_has_subscription`), not an active/trialing
status.  For every user without one, a generate-story request is denied with
the quota error iff the user already has a story created since the start of
the current UTC day (all categories); the denial happens before the
generation call is reached and leaves the datastore unchanged.  For every
user with a stored subscription id the quota never denies the request. -/
theorem c2_quota_amended (db : Db) (todayStart now : Nat) (req : GenerateStoryRequest)
    (genStep : Nat → List Str → Except PyExc (Str × Str)) (storageOk : Bool) (newId : Nat) :
    (user_has_subscription db req.user_id = false →
      ((generate_story_content db todayStart now req genStep storageOk newId).response =
          .error quotaError ↔
        1 ≤ count_stories_generated_today db todayStart req.user_id)) ∧
    (user_has_subscription db req.user_id = false →
      1 ≤ count_stories_generated_today db todayStart req.user_id →
      (generate_story_content db todayStart now req genStep storageOk newId).reached_generation
          = false ∧
      (generate_story_content db todayStart now req genStep storageOk newId).db = db) ∧
    (user_has_subscription db req.user_id = true →
      (generate_story_content db todayStart now req genStep storageOk newId).response ≠
        .error quotaError) := by
  by_cases hq : user_has_subscription db req.user_id = false ∧
      1 ≤ count_stories_generated_today db todayStart req.user_id
  · have hrun := gsc_quota_denied db todayStart now req genStep storageOk newId hq
    refine ⟨fun _ => ?_, fun _ _ => ?_, fun hsub => ?_⟩
    · rw [hrun]
      exact iff_of_true rfl hq.2
    · rw [hrun]
      exact ⟨rfl, rfl⟩
    · rw [hq.1] at hsub
      exact absurd hsub (by decide)
  · have hne : (generate_story_content db todayStart now req genStep storageOk newId).response ≠
        .error quotaError := by
      cases hd : get_desire_id_by_name db req.desireCategory with
      | error e =>
        rw [gsc_desire_fail db todayStart now req genStep storageOk newId hq e hd]
        intro hcontra
        simp only [Except.error.injEq] at hcontra
        have h404 := get_desire_error_status db req.desireCategory e hd
        rw [hcontra] at h404
        simp [quotaError] at h404
      | ok did =>
        cases hg : genStep (next_story_count db req.user_id did)
            (previous_story_themes db req.user_id did) with
        | error ge =>
          rw [gsc_gen_error db todayStart now req genStep storageOk newId hq did hd ge hg]
          intro hcontra
          simp only [Except.error.injEq] at hcontra
          exact map_generation_exception_ne_quota ge hcontra
        | ok pair =>
          obtain ⟨theme, story⟩ := pair
          cases storageOk with
          | true =>
            rw [gsc_success db todayStart now req genStep newId hq did hd theme story hg]
            intro hcontra
            cases hcontra
          | false =>
            rw [gsc_storage_fail db todayStart now req genStep newId hq did hd theme story hg]
            intro hcontra
            simp only [Except.error.injEq] at hcontra
            have := congrArg HTTPError.status hcontra
            simp [quotaError] at this
    refine ⟨fun hsub => ?_, fun hsub hcnt => ?_, fun _ => hne⟩
    · exact iff_of_false hne (fun hcnt => hq ⟨hsub, hcnt⟩)
    · exact absurd ⟨hsub, hcnt⟩ hq

/-- The database of the C2 witness scenario: user 7 has no `Users` row (hence
no subscription) and one story created today. -/
def c2w_db : Db := ⟨[], [⟨1, str "Money"⟩], [⟨10, 7, 1, str "t", str "s", 120⟩]⟩

/-- The request of the C2 witness scenario. -/
def c2w_req : GenerateStoryRequest :=
  ⟨7, str "Ann", str "Paris", str "Abundant", str "Money", str "I had enough money", none⟩

/-- Witness for C2: a non-subscriber with one story today is denied before
the generation step, with the datastore unchanged. -/
theorem c2_quota_amended_witness :
    (generate_story_content c2w_db 100 150 c2w_req
        (fun _ _ => .error (.otherExc (str "x"))) true 3).reached_generation = false ∧
    (generate_story_content c2w_db 100 150 c2w_req
        (fun _ _ => .error (.otherExc (str "x"))) true 3).db = c2w_db :=
  (c2_quota_amended c2w_db 100 150 c2w_req
    (fun _ _ => .error (.otherExc (str "x"))) true 3).2.1 (by decide) (by decide)

/-- Claim C9: a failed generate-story request (quota denial, category
NotFound, generation failure of any kind, or storage failure) never inserts a
Story row and returns an error response (hence no story content and no
identity); the datastore changes only when the generation step fully
succeeded and the insert went through, in which case the inserted row and the
success response carry exactly the generated theme and story. -/
theorem c9_no_partial_story (db : Db) (todayStart now : Nat) (req : GenerateStoryRequest)
    (genStep : Nat → List Str → Except PyExc (Str × Str)) (storageOk : Bool) (newId : Nat) :
    (∀ e : HTTPError,
      (generate_story_content db todayStart now req genStep storageOk newId).response = .error e →
      (generate_story_content db todayStart now req genStep storageOk newId).db = db) ∧
    ((generate_story_content db todayStart now req genStep storageOk newId).db ≠ db →
      ∃ did theme story,
        get_desire_id_by_name db req.desireCategory = .ok did ∧
        genStep (next_story_count db req.user_id did)
          (previous_story_themes db req.user_id did) = .ok (theme, story) ∧
        storageOk = true ∧
        (generate_story_content db todayStart now req genStep storageOk newId).response =
          .ok ⟨some newId, theme, story⟩ ∧
        (generate_story_content db todayStart now req genStep storageOk newId).db =
          { db with stories := db.stories ++ [⟨newId, req.user_id, did, theme, story, now⟩] }) := by
  by_cases hq : user_has_subscription db req.user_id = false ∧
      1 ≤ count_stories_generated_today db todayStart req.user_id
  · rw [gsc_quota_denied db todayStart now req genStep storageOk newId hq]
    exact ⟨fun _ _ => rfl, fun h => absurd rfl h⟩
  · cases hd : get_desire_id_by_name db req.desireCategory with
    | error e =>
      rw [gsc_desire_fail db todayStart now req genStep storageOk newId hq e hd]
      exact ⟨fun _ _ => rfl, fun h => absurd rfl h⟩
    | ok did =>
      cases hg : genStep (next_story_count db req.user_id did)
          (previous_story_themes db req.user_id did) with
      | error ge =>
        rw [gsc_gen_error db todayStart now req genStep storageOk newId hq did hd ge hg]
        exact ⟨fun _ _ => rfl, fun h => absurd rfl h⟩
      | ok pair =>
        obtain ⟨theme, story⟩ := pair
        cases storageOk with
        | true =>
          rw [gsc_success db todayStart now req genStep newId hq did hd theme story hg]
          refine ⟨fun e he => ?_, fun _ => ⟨did, theme, story, rfl, hg, rfl, rfl, rfl⟩⟩
          cases he
        | false =>
          rw [gsc_storage_fail db todayStart now req genStep newId hq did hd theme story hg]
          exact ⟨fun _ _ => rfl, fun h => absurd rfl h⟩

/-- The database of the C9 witness scenario. -/
def c9_db : Db := ⟨[], [⟨1, str "Money"⟩], []⟩

/-- The request of the C9 witness scenario. -/
def c9_req : GenerateStoryRequest :=
  ⟨7, str "Ann", str "Paris", str "Abundant", str "Money", str "I had enough money", none⟩

/-- Witness for C9: a request whose generation step raises leaves the
datastore unchanged. -/
theorem c9_no_partial_story_witness :
    (generate_story_content c9_db 100 150 c9_req
        (fun _ _ => .error (.valueError (str "boom"))) true 4).db = c9_db :=
  (c9_no_partial_story c9_db 100 150 c9_req
    (fun _ _ => .error (.valueError (str "boom"))) true 4).1
    ⟨400, str "boom"⟩ (by decide)

/-- Claim C8: a generate-story request whose `energyWord` or `desireCategory`
is outside its fixed enumeration, or whose `desireDescription`, `name` or
`location` is empty, is rejected with a validation error before any
datastore or provider call is made, leaving the datastore unchanged.
(The enumerations are spec-modelled: `stories.py` imports them from
`app.core.config`, which does not define them.) -/
theorem c8_validation_rejects_early (db : Db) (todayStart now : Nat)
    (req : GenerateStoryRequest)
    (genStep : Nat → List Str → Except PyExc (Str × Str)) (storageOk : Bool) (newId : Nat)
    (h : ¬ ENERGY_WORDS.contains req.energyWord = true ∨
      ¬ CATEGORIES.contains req.desireCategory = true ∨
      req.desireDescription = [] ∨ req.name = [] ∨ req.location = []) :
    (handle_generate_story db todayStart now req genStep storageOk newId).response =
      .error ⟨422, str "validation error"⟩ ∧
    (handle_generate_story db todayStart now req genStep storageOk newId).datastore_called
        = false ∧
    (handle_generate_story db todayStart now req genStep storageOk newId).reached_generation
        = false ∧
    (handle_generate_story db todayStart now req genStep storageOk newId).db = db := by
  have hv : ¬ valid_generate_story_request req = true := by
    intro hvv
    unfold valid_generate_story_request at hvv
    simp only [Bool.and_eq_true] at hvv
    obtain ⟨⟨⟨⟨hn, hl⟩, hdd⟩, he⟩, hc⟩ := hvv
    rcases h with h | h | h | h | h
    · exact h he
    · exact h hc
    · rw [h] at hdd
      exact absurd hdd (by decide)
    · rw [h] at hn
      exact absurd hn (by decide)
    · rw [h] at hl
      exact absurd hl (by decide)
  unfold handle_generate_story
  rw [if_neg hv]
  exact ⟨rfl, rfl, rfl, rfl⟩

/-- Witness for C8: a request with the out-of-enumeration energy word "Zen"
is rejected with 422 and touches nothing. -/
theorem c8_validation_rejects_early_witness :
    (handle_generate_story c9_db 100 150
        ⟨7, str "Ann", str "Paris", str "Zen", str "Money", str "I had enough money", none⟩
        (fun _ _ => .error (.otherExc (str "x"))) true 4).response =
      .error ⟨422, str "validation error"⟩ ∧
    (handle_generate_story c9_db 100 150
        ⟨7, str "Ann", str "Paris", str "Zen", str "Money", str "I had enough money", none⟩
        (fun _ _ => .error (.otherExc (str "x"))) true 4).datastore_called = false ∧
    (handle_generate_story c9_db 100 150
        ⟨7, str "Ann", str "Paris", str "Zen", str "Money", str "I had enough money", none⟩
        (fun _ _ => .error (.otherExc (str "x"))) true 4).reached_generation = false ∧
    (handle_generate_story c9_db 100 150
        ⟨7, str "Ann", str "Paris", str "Zen", str "Money", str "I had enough money", none⟩
        (fun _ _ => .error (.otherExc (str "x"))) true 4).db = c9_db :=
  c8_validation_rejects_early c9_db 100 150
    ⟨7, str "Ann", str "Paris", str "Zen", str "Money", str "I had enough money", none⟩
    (fun _ _ => .error (.otherExc (str "x"))) true 4 (Or.inl (by decide))

/-- The database of the C1 scenario: user 42 with no `Users` row, a "Health"
catalog entry, and no prior stories. -/
def c1_db : Db := ⟨[], [⟨3, str "Health"⟩], []⟩

/-- The request of the C1 scenario. -/
def c1_req : GenerateStoryRequest :=
  ⟨42, str "Jo", str "Rome", str "Powerful", str "Health", str "I ran five miles", none⟩

/-- Claim C1: the pipeline is supposed to select the stage prompt from the
sequence number and then parse/insert/respond, but the call at
`stories.py:126-135` passes keyword arguments (`name`, `location`,
`energyWord`, `desireCategory`, `desireDescription`, `lovedOne`,
`storyCount`, `previousStoryThemes`) that `claude.generate_story`
(`claude.py:78-86`) does not accept, so every such call raises `TypeError`:
the keyword binding fails, the generation step is independent of the
sequence number and prior themes it is given, and a request that passes the
quota gate and category resolution ends in HTTP 502 with no row inserted —
the response is never assembled from a parsed story. -/
theorem c1_generation_call_type_error :
    kwargsAccepted = false ∧
    (∀ (cfg : ClaudeConfig) (category : Str) (provider : ProviderOutcome)
        (n m : Nat) (t1 t2 : List Str),
      actual_generation_step cfg category provider n t1 =
        actual_generation_step cfg category provider m t2) ∧
    (generate_story_content c1_db 0 50 c1_req
        (actual_generation_step ⟨str "sk-key", str "be a storyteller"⟩ (str "Health")
          (.returned (str "TITLE: T\n\nBody")))
        true 9).response =
      .error ⟨502, str "Story generation failed: " ++
        str "generate_story() got an unexpected keyword argument name"⟩ ∧
    (generate_story_content c1_db 0 50 c1_req
        (actual_generation_step ⟨str "sk-key", str "be a storyteller"⟩ (str "Health")
          (.returned (str "TITLE: T\n\nBody")))
        true 9).db = c1_db := by
  refine ⟨by decide, fun _ _ _ _ _ _ _ => rfl, by decide, by decide⟩

end Already
